import Mathlib

/-!
Shallow embedding of the reflective-journaling session frontend
(`src/frontend/hooks/useAudioRecorder.ts`, which concatenates the audio
recorder hook, the API client and the `HomePage` orchestrator, and
`src/frontend/components/SessionTimer.tsx`).

Modelling conventions:
* React `useState`/`useRef` cells become fields of explicit state records;
  each event handler is a pure function from state (plus an environment
  recording the outcomes of remote calls and of microphone acquisition) to
  state, optionally paired with the list of outward actions it performed.
* JavaScript is single-threaded with run-to-completion scheduling, so the
  synchronous prefix of an async handler (everything before its first
  `await`) executes atomically; concurrent invocations serialize those
  prefixes in some order, which we model by folding the prefix function.
* `new Date(x).getTime()` on an event's `createdAt` string is modelled by
  storing the parsed timestamp directly as an `Int` field.
* `sessionStorage` is a single slot holding either a well-formed serialized
  summary or a malformed string (`JSON.parse` failure).
-/

namespace Journal

/-- `PromptEvent` from the API module; `createdAt` is the parsed epoch
timestamp of the ISO string (`new Date(createdAt).getTime()`). -/
structure PromptEvent where
  id : String
  type : String
  content : String
  audioUrl : Option String
  createdAt : Int
deriving DecidableEq, Repr

/-- `SessionSummary` from the API module. -/
structure SessionSummary where
  summary : String
  tips : List String
  generatedAt : String
deriving DecidableEq, Repr

/-- `SessionStartResponse` from the API module. -/
structure SessionStartResponse where
  sessionId : String
  expiresAt : String
  initialPrompt : Option PromptEvent
deriving DecidableEq, Repr

/-- Outcome of a remote call: resolves with a value or rejects with an
error message (the `Error.message` the `catch` blocks read). -/
inductive RemoteResult (α : Type) where
  | ok (a : α)
  | err (msg : String)
deriving DecidableEq, Repr

/-- Outcome of `navigator.mediaDevices.getUserMedia` (plus the
`MediaRecorder` constructor): success, or rejection with a message. -/
inductive MicResult where
  | ok
  | fail (msg : String)
deriving DecidableEq, Repr

/-- `sessionPhase` in `HomePage`. -/
inductive SessionPhase where
  | idle
  | running
  | completed
deriving DecidableEq, Repr

/-- One entry of the `sessionStorage` slot `latestJournalSummary`: a string
that `JSON.parse` either decodes to a summary or fails on. -/
inductive CacheEntry where
  | wellFormed (s : SessionSummary)
  | malformed (raw : String)
deriving DecidableEq, Repr

/-- State of the `useAudioRecorder` hook: `active` is whether
`mediaRecorderRef` holds a recorder whose state is not `"inactive"`,
`isRecording`/`recError` are its `useState` cells, `chunkSeq` is
`chunkSequenceRef.current`. -/
structure RecorderState where
  active : Bool
  isRecording : Bool
  chunkSeq : Nat
  recError : Option String
deriving DecidableEq, Repr

/-- Outward actions performed by the orchestrator's handlers. -/
inductive Action where
  | callStartSession
  | recorderStart
  | callCompleteSession (sid : String)
  | callFetchPersisted (sid : String)
deriving DecidableEq, Repr

/-- State of the `HomePage` orchestrator: its `useState`/`useRef` cells,
the recorder hook's state, and the `sessionStorage` slot. -/
structure OrchState where
  sessionPhase : SessionPhase
  sessionId : Option String
  events : List PromptEvent
  localSummary : Option SessionSummary
  persistedSummary : Option SessionSummary
  isCompleting : Bool
  isFetchingPersisted : Bool
  error : Option String
  eventStreamOpen : Bool
  completionGuard : Bool
  recorder : RecorderState
  cache : Option CacheEntry
deriving DecidableEq, Repr

/-- The comparator of `appendEvent`'s sort:
`new Date(a.createdAt).getTime() - new Date(b.createdAt).getTime()`
orders by parsed timestamp ascending (JS `Array.prototype.sort` is stable,
so a stable merge sort with `≤` is its faithful counterpart). -/
def eventLe (a b : PromptEvent) : Bool :=
  decide (a.createdAt ≤ b.createdAt)

/-- `appendEvent` in `HomePage`: drop the incoming event if its id is
already present, otherwise append it and re-sort by creation timestamp. -/
def appendEvent (prev : List PromptEvent) (incoming : PromptEvent) : List PromptEvent :=
  if prev.any (fun e => e.id == incoming.id) then prev
  else (prev ++ [incoming]).mergeSort eventLe

/-- Admit a whole arrival sequence into an initially empty log. -/
def admitAll (evs : List PromptEvent) : List PromptEvent :=
  evs.foldl appendEvent []

/-- The event-log invariant: no two entries share an id, and the log is
sorted ascending by creation timestamp. -/
def EventLogWF (log : List PromptEvent) : Prop :=
  (log.map (fun e => e.id)).Nodup ∧
    log.Sorted (fun a b => a.createdAt ≤ b.createdAt)

/-- `useAudioRecorder.start`: on microphone success a fresh recorder is
installed, the chunk counter resets to 0, recording turns on and the error
clears; on failure only the error cell is written (the hook catches the
rejection and does not rethrow). -/
def recorderStart (mic : MicResult) (r : RecorderState) : RecorderState × List Action :=
  match mic with
  | .ok =>
      ({ active := true, isRecording := true, chunkSeq := 0, recError := none },
       [Action.recorderStart])
  | .fail msg =>
      ({ r with recError := some msg }, [])

/-- `useAudioRecorder.stop`: stops the recorder when one is active (the
`"stop"` listener releases the tracks and clears `isRecording`); a no-op
otherwise, hence idempotent. -/
def recorderStop (r : RecorderState) : RecorderState :=
  if r.active then { r with active := false, isRecording := false } else r

/-- The `"dataavailable"` listener: for a non-empty chunk the counter is
incremented synchronously and the new value is handed to `onChunk` with the
chunk; an empty chunk is skipped. The returned option is the sequence
number given to the sink. Upload settlement feeds nothing back into the
counter (an `onChunk` rejection is caught and only logged), so the emitted
numbers do not depend on upload completion timing. -/
def recorderChunk (r : RecorderState) (size : Nat) : RecorderState × Option Nat :=
  if 0 < size then
    ({ r with chunkSeq := r.chunkSeq + 1 }, some (r.chunkSeq + 1))
  else (r, none)

/-- Deliver a series of chunks (given by their byte sizes) and collect the
sequence numbers handed to the sink. -/
def recorderChunks (r : RecorderState) (sizes : List Nat) : RecorderState × List Nat :=
  match sizes with
  | [] => (r, [])
  | sz :: rest =>
      let step := recorderChunk r sz
      let tail := recorderChunks step.1 rest
      (tail.1, step.2.toList ++ tail.2)

/-- `resetSessionState` in `HomePage`: clears the event log, both
summaries, the error, the completion flags, the session id and the
completion guard. It does not touch the phase, the recorder, the event
stream or the `sessionStorage` slot. -/
def resetSessionState (s : OrchState) : OrchState :=
  { s with events := [], localSummary := none, persistedSummary := none,
           error := none, isCompleting := false, isFetchingPersisted := false,
           sessionId := none, completionGuard := false }

/-- Environment of one `handleSessionStart` invocation: the outcome of the
`startSession` remote call and of microphone acquisition. -/
structure StartEnv where
  startResult : RemoteResult SessionStartResponse
  mic : MicResult
deriving DecidableEq, Repr

/-- `handleSessionStart` in `HomePage`: reset, `await startSession()`; on
success record the session id, enter `running`, admit the initial prompt
if present, then `await startRecording()` (which never rejects — the hook
catches microphone failure internally). On rejection the `catch` block
surfaces the message, reverts the phase to `idle` and clears the session
id; recording is never started. -/
def handleSessionStart (env : StartEnv) (s : OrchState) : OrchState × List Action :=
  let s0 := resetSessionState s
  match env.startResult with
  | .err msg =>
      ({ s0 with error := some msg, sessionPhase := .idle, sessionId := none },
       [Action.callStartSession])
  | .ok resp =>
      let s1 := { s0 with sessionId := some resp.sessionId, sessionPhase := .running }
      let s2 :=
        match resp.initialPrompt with
        | some e => { s1 with events := appendEvent s1.events e }
        | none => s1
      let started := recorderStart env.mic s2.recorder
      ({ s2 with recorder := started.1 }, Action.callStartSession :: started.2)

/-- The `HomePage` effect opening the prompt `EventSource` runs exactly
when the phase is `running` and a session id is recorded. -/
def eventStreamShouldOpen (s : OrchState) : Bool :=
  s.sessionPhase == SessionPhase.running && s.sessionId.isSome

/-- The `SessionTimer` is mounted with `isRunning = (sessionPhase ===
"running")`, so its countdown loop is armed exactly in phase `running`. -/
def timerArmedFor (s : OrchState) : Bool :=
  s.sessionPhase == SessionPhase.running

/-- Environment of one `handleSessionComplete` invocation: the outcomes of
the `completeSession` (finalize) and `fetchPersistedSummary` calls. -/
structure CompleteEnv where
  finalize : RemoteResult SessionSummary
  persisted : RemoteResult SessionSummary
deriving DecidableEq, Repr

/-- The synchronous prefix of `handleSessionComplete` — everything before
its first `await`, which JavaScript's run-to-completion scheduling
executes atomically: bail out (returning `false`) when no session id is
recorded or the completion guard is already held; otherwise acquire the
guard, set `isCompleting`, stop the recorder, close the event stream and
enter phase `completed`, returning `true`. -/
def handleSessionCompleteSync (s : OrchState) : OrchState × Bool :=
  if s.sessionId.isNone || s.completionGuard then (s, false)
  else
    ({ s with completionGuard := true, isCompleting := true,
              recorder := recorderStop s.recorder,
              eventStreamOpen := false,
              sessionPhase := .completed }, true)

/-- The part of `handleSessionComplete` after the guard was acquired: the
`try { await completeSession; …; await fetchPersistedSummary; … } catch
{ setError } finally { … }` block. Both awaits sit in the same `try`, so a
rejection of either sets the error cell. -/
def handleSessionCompleteRest (env : CompleteEnv) (sid : String) (s : OrchState) :
    OrchState × List Action :=
  let afterTry :=
    match env.finalize with
    | .err msg => ({ s with error := some msg }, [Action.callCompleteSession sid])
    | .ok sum =>
        let sA := { s with localSummary := some sum,
                           cache := some (CacheEntry.wellFormed sum),
                           isFetchingPersisted := true }
        match env.persisted with
        | .err msg =>
            ({ sA with error := some msg },
             [Action.callCompleteSession sid, Action.callFetchPersisted sid])
        | .ok p =>
            ({ sA with persistedSummary := some p },
             [Action.callCompleteSession sid, Action.callFetchPersisted sid])
  ({ afterTry.1 with isCompleting := false, isFetchingPersisted := false },
   afterTry.2)

/-- `handleSessionComplete` in `HomePage`: the atomic synchronous prefix
followed, only when the guard was acquired in it, by the finalize/fetch
continuation. -/
def handleSessionComplete (env : CompleteEnv) (s : OrchState) : OrchState × List Action :=
  let pre := handleSessionCompleteSync s
  if pre.2 then
    match s.sessionId with
    | some sid => handleSessionCompleteRest env sid pre.1
    | none => (pre.1, [])
  else (pre.1, [])

/-- `n` full invocations of `handleSessionComplete` run back to back,
collecting all outward actions. -/
def completeMany (env : CompleteEnv) : Nat → OrchState → OrchState × List Action
  | 0, s => (s, [])
  | n + 1, s =>
      let first := handleSessionComplete env s
      let rest := completeMany env n first.1
      (rest.1, first.2 ++ rest.2)

/-- `n` synchronous prefixes of `handleSessionComplete` serialized in
program order (the shape every concurrent triggering reduces to under
run-to-completion scheduling), counting how many acquire the guard. -/
def completeManySync : Nat → OrchState → OrchState × Nat
  | 0, s => (s, 0)
  | n + 1, s =>
      let pre := handleSessionCompleteSync s
      let rest := completeManySync n pre.1
      (rest.1, (if pre.2 then 1 else 0) + rest.2)

/-- `persistedSummary ?? localSummary` — the summary the page displays. -/
def displayedSummary (s : OrchState) : Option SessionSummary :=
  match s.persistedSummary with
  | some p => some p
  | none => s.localSummary

/-- The `HomePage` rehydration effect: when the `sessionStorage` slot is
non-empty and no local summary is in memory, `JSON.parse` the slot and
adopt it as the local summary; a parse failure is caught and only logged. -/
def rehydrate (s : OrchState) : OrchState :=
  match s.cache with
  | none => s
  | some entry =>
      if s.localSummary.isSome then s
      else
        match entry with
        | .wellFormed sum => { s with localSummary := some sum }
        | .malformed _ => s

/-- State of the `SessionTimer` countdown loop: `armed` is the `isRunning`
prop (a `false` value unmounts the loop and cancels the pending animation
frame), `startTime` the `performance.now()` captured when the effect
started, `expired` records that the loop already fired `onExpire` and
stopped scheduling further frames. -/
structure TimerState where
  armed : Bool
  startTime : Nat
  durationMs : Nat
  remainingMs : Nat
  expired : Bool
deriving DecidableEq, Repr

/-- One animation-frame callback of `SessionTimer` at clock value `now`:
recompute `remaining = max(durationMs - elapsed, 0)`; at zero invoke
`onExpire` (the returned flag) and return without scheduling another
frame; otherwise schedule the next frame. A disarmed or already-expired
timer has no pending frame, so the tick is a no-op. -/
def timerTick (t : TimerState) (now : Nat) : TimerState × Bool :=
  if !t.armed || t.expired then (t, false)
  else
    let elapsed := now - t.startTime
    let nextRemaining := t.durationMs - elapsed
    if nextRemaining = 0 then
      ({ t with remainingMs := 0, expired := true }, true)
    else
      ({ t with remainingMs := nextRemaining }, false)

/-- Run the countdown loop over a series of animation-frame clock values,
counting `onExpire` invocations. -/
def timerRun (t : TimerState) (frames : List Nat) : TimerState × Nat :=
  match frames with
  | [] => (t, 0)
  | f :: rest =>
      let step := timerTick t f
      let tail := timerRun step.1 rest
      (tail.1, (if step.2 then 1 else 0) + tail.2)

/-! ### Concrete example values used by witnesses and counterexamples -/

/-- A freshly mounted `HomePage` with a freshly mounted recorder hook. -/
def initState : OrchState :=
  { sessionPhase := .idle, sessionId := none, events := [], localSummary := none,
    persistedSummary := none, isCompleting := false, isFetchingPersisted := false,
    error := none, eventStreamOpen := false, completionGuard := false,
    recorder := { active := false, isRecording := false, chunkSeq := 0, recError := none },
    cache := none }

/-- A session in phase `running` with an active recorder and open stream. -/
def runningState : OrchState :=
  { initState with sessionPhase := .running, sessionId := some "s1",
                   eventStreamOpen := true,
                   recorder := { active := true, isRecording := true,
                                 chunkSeq := 2, recError := none } }

/-- A summary left behind by a previous session. -/
def oldSummary : SessionSummary :=
  { summary := "old reflections", tips := ["tip"], generatedAt := "2024-01-01" }

/-- The summary the finalize call of the current session returns. -/
def freshSummary : SessionSummary :=
  { summary := "fresh reflections", tips := [], generatedAt := "2024-01-02" }

/-- State after a previous session completed: its summary is still in
memory and in the `sessionStorage` slot. -/
def completedState : OrchState :=
  { initState with sessionPhase := .completed, sessionId := some "s0",
                   localSummary := some oldSummary,
                   cache := some (CacheEntry.wellFormed oldSummary),
                   completionGuard := true }

/-- A successful `POST /sessions` response without an initial prompt. -/
def okStartResponse : SessionStartResponse :=
  { sessionId := "s1", expiresAt := "2024-01-02T00:05:00Z", initialPrompt := none }

/-- Start environment: remote start succeeds, microphone granted. -/
def startEnvOk : StartEnv := { startResult := .ok okStartResponse, mic := .ok }

/-- Start environment: remote start succeeds, microphone denied. -/
def startEnvMicFail : StartEnv :=
  { startResult := .ok okStartResponse, mic := .fail "denied" }

/-- Completion environment: finalize succeeds, persisted fetch fails. -/
def envFetchFail : CompleteEnv :=
  { finalize := .ok freshSummary, persisted := .err "network down" }

/-- Completion environment: both remote calls succeed. -/
def envComplete : CompleteEnv :=
  { finalize := .ok freshSummary, persisted := .ok freshSummary }

/-- The initial prompt of the spec's scenario, created at time 100. -/
def ev1 : PromptEvent :=
  { id := "e1", type := "prompt", content := "How was today?", audioUrl := none,
    createdAt := 100 }

/-- A later-arriving event with an earlier creation timestamp. -/
def ev2 : PromptEvent :=
  { id := "e2", type := "response", content := "Fine", audioUrl := none,
    createdAt := 50 }

/-! ### C2 — event-log admission: deduplication and timestamp order -/

lemma eventLe_trans (a b c : PromptEvent) (hab : eventLe a b = true)
    (hbc : eventLe b c = true) : eventLe a c = true := by
  simp only [eventLe, decide_eq_true_eq] at *
  exact le_trans hab hbc

lemma eventLe_total (a b : PromptEvent) : (eventLe a b || eventLe b a) = true := by
  simp only [eventLe, Bool.or_eq_true, decide_eq_true_eq]
  exact le_total a.createdAt b.createdAt

lemma appendEvent_of_dup (log : List PromptEvent) (e : PromptEvent)
    (h : log.any (fun x => x.id == e.id) = true) : appendEvent log e = log := by
  simp [appendEvent, h]

lemma appendEvent_wf (log : List PromptEvent) (e : PromptEvent)
    (h : EventLogWF log) : EventLogWF (appendEvent log e) := by
  unfold appendEvent
  by_cases hdup : log.any (fun x => x.id == e.id) = true
  · simpa [hdup] using h
  · rw [if_neg hdup]
    constructor
    · have hperm : ((log ++ [e]).mergeSort eventLe).Perm (log ++ [e]) :=
        List.mergeSort_perm _ _
      have hmap := hperm.map (fun x => x.id)
      rw [hmap.nodup_iff]
      rw [List.map_append, List.nodup_append]
      refine ⟨h.1, by simp, ?_⟩
      intro a ha hb
      simp only [List.map_singleton, List.mem_singleton] at hb
      obtain ⟨x, hx, hxid⟩ := List.mem_map.mp ha
      have hne : ¬(x.id == e.id) = true := by
        intro hc
        exact hdup (List.any_eq_true.mpr ⟨x, hx, hc⟩)
      exact hne (by simp [hxid, hb])
    · have := List.sorted_mergeSort eventLe_trans eventLe_total (log ++ [e])
      refine this.imp ?_
      intro a b hab
      simpa [eventLe, decide_eq_true_eq] using hab

lemma foldl_appendEvent_wf (evs : List PromptEvent) (log : List PromptEvent)
    (h : EventLogWF log) : EventLogWF (evs.foldl appendEvent log) := by
  induction evs generalizing log with
  | nil => simpa using h
  | cons e rest ih => exact ih _ (appendEvent_wf _ _ h)

/-- C2: every arrival sequence admitted into the initially empty log via
`appendEvent` leaves, after each admission, a log with pairwise-distinct
event ids that is sorted ascending by creation timestamp, and an incoming
event whose id is already present leaves the log unchanged. -/
theorem eventLog_dedup_and_sorted :
    (∀ evs : List PromptEvent, EventLogWF (admitAll evs)) ∧
    (∀ (log : List PromptEvent) (e : PromptEvent),
      log.any (fun x => x.id == e.id) = true → appendEvent log e = log) := by
  constructor
  · intro evs
    exact foldl_appendEvent_wf evs [] ⟨List.nodup_nil, List.sorted_nil⟩
  · exact appendEvent_of_dup

/-- Witness for C2, running the spec's scenario: admit `e1`, then the
earlier-stamped `e2`, then the duplicate `e1`; the invariant holds and the
duplicate leaves the log unchanged. -/
theorem eventLog_dedup_and_sorted_witness :
    EventLogWF (admitAll [ev1, ev2, ev1]) ∧
    appendEvent (admitAll [ev1, ev2]) ev1 = admitAll [ev1, ev2] :=
  ⟨eventLog_dedup_and_sorted.1 [ev1, ev2, ev1],
   eventLog_dedup_and_sorted.2 (admitAll [ev1, ev2]) ev1
     (by simp [admitAll, appendEvent, List.mergeSort, eventLe, ev1, ev2])⟩

/-! ### C1 / C10 — exactly-once completion and the no-session no-op -/

lemma handleSessionCompleteSync_noop (s : OrchState) (h : s.completionGuard = true) :
    handleSessionCompleteSync s = (s, false) := by
  simp [handleSessionCompleteSync, h]

lemma handleSessionCompleteSync_fires (s : OrchState)
    (hsid : s.sessionId.isNone = false) (hg : s.completionGuard = false) :
    (handleSessionCompleteSync s).2 = true ∧
    (handleSessionCompleteSync s).1.completionGuard = true := by
  simp [handleSessionCompleteSync, hsid, hg]

lemma handleSessionComplete_noop (env : CompleteEnv) (s : OrchState)
    (h : s.completionGuard = true) :
    handleSessionComplete env s = (s, []) := by
  simp [handleSessionComplete, handleSessionCompleteSync_noop s h]

lemma completeMany_noop (env : CompleteEnv) (n : Nat) (s : OrchState)
    (h : s.completionGuard = true) : completeMany env n s = (s, []) := by
  induction n with
  | zero => rfl
  | succ m ih => simp [completeMany, handleSessionComplete_noop env s h, ih]

lemma completeManySync_noop (n : Nat) (s : OrchState)
    (h : s.completionGuard = true) : completeManySync n s = (s, 0) := by
  induction n with
  | zero => rfl
  | succ m ih => simp [completeManySync, handleSessionCompleteSync_noop s h, ih]

lemma handleSessionCompleteRest_guard (env : CompleteEnv) (sid : String)
    (s : OrchState) :
    (handleSessionCompleteRest env sid s).1.completionGuard = s.completionGuard := by
  unfold handleSessionCompleteRest
  cases hf : env.finalize <;> cases hp : env.persisted <;> simp

lemma handleSessionCompleteRest_count (env : CompleteEnv) (sid : String)
    (s : OrchState) :
    (handleSessionCompleteRest env sid s).2.count (Action.callCompleteSession sid)
      = 1 := by
  unfold handleSessionCompleteRest
  cases hf : env.finalize <;> cases hp : env.persisted <;> simp [List.count_cons]

lemma handleSessionComplete_fires (env : CompleteEnv) (s : OrchState) (sid : String)
    (hsid : s.sessionId = some sid) (hg : s.completionGuard = false) :
    handleSessionComplete env s
      = handleSessionCompleteRest env sid (handleSessionCompleteSync s).1 := by
  have hnone : s.sessionId.isNone = false := by simp [hsid]
  have hf := handleSessionCompleteSync_fires s hnone hg
  simp [handleSessionComplete, hf.1, hsid]

/-- C1: with a session id recorded and the guard still free, any number
`n ≥ 1` of serialized invocations of `completeSession` acquires the
one-shot guard exactly once (the synchronous prefix is atomic under
run-to-completion scheduling, so concurrent triggering by timer expiry and
manual stop serializes to exactly this fold), the finalize remote call is
issued exactly once across all `n` invocations, and every invocation that
finds the guard already held returns immediately without changing state or
performing any action. -/
theorem completeSession_exactly_once (env : CompleteEnv) (s : OrchState)
    (sid : String) (n : Nat)
    (hsid : s.sessionId = some sid) (hg : s.completionGuard = false)
    (hn : 1 ≤ n) :
    (completeManySync n s).2 = 1 ∧
    (completeMany env n s).2.count (Action.callCompleteSession sid) = 1 ∧
    (∀ t : OrchState, t.completionGuard = true →
      handleSessionComplete env t = (t, [])) := by
  obtain ⟨m, rfl⟩ : ∃ m, n = m + 1 := ⟨n - 1, by omega⟩
  have hnone : s.sessionId.isNone = false := by simp [hsid]
  have hf := handleSessionCompleteSync_fires s hnone hg
  refine ⟨?_, ?_, fun t ht => handleSessionComplete_noop env t ht⟩
  · have hnoop := completeManySync_noop m (handleSessionCompleteSync s).1 hf.2
    simp [completeManySync, hf.1, hnoop]
  · have hcomp := handleSessionComplete_fires env s sid hsid hg
    have hguard : (handleSessionCompleteRest env sid
        (handleSessionCompleteSync s).1).1.completionGuard = true := by
      rw [handleSessionCompleteRest_guard]
      exact hf.2
    have hnoop := completeMany_noop env m _ hguard
    simp [completeMany, hcomp, hnoop, handleSessionCompleteRest_count]

/-- Witness for C1: three invocations against a running session with id
`s1` acquire the guard once, issue one finalize call, and an invocation
against a state whose guard is held (the completed state) is a no-op. -/
theorem completeSession_exactly_once_witness :
    (completeManySync 3 runningState).2 = 1 ∧
    (completeMany envComplete 3 runningState).2.count
      (Action.callCompleteSession "s1") = 1 ∧
    handleSessionComplete envComplete completedState = (completedState, []) :=
  ⟨(completeSession_exactly_once envComplete runningState "s1" 3 rfl rfl
      (by decide)).1,
   (completeSession_exactly_once envComplete runningState "s1" 3 rfl rfl
      (by decide)).2.1,
   (completeSession_exactly_once envComplete runningState "s1" 3 rfl rfl
      (by decide)).2.2 completedState rfl⟩

/-- C10: invoking `completeSession` while no session id is recorded is a
complete no-op — the guard is not acquired, no remote call is issued, and
the whole state (phase, log, summaries, error) is returned unchanged. -/
theorem completeSession_noSession_noop (env : CompleteEnv) (s : OrchState)
    (h : s.sessionId = none) :
    handleSessionComplete env s = (s, []) := by
  have hnone : s.sessionId.isNone = true := by simp [h]
  simp [handleSessionComplete, handleSessionCompleteSync, hnone]

/-- Witness for C10: completing on the freshly mounted page (no session
ever started) changes nothing and performs no action. -/
theorem completeSession_noSession_noop_witness :
    handleSessionComplete envComplete initState = (initState, []) :=
  completeSession_noSession_noop envComplete initState rfl

/-! ### C5 — remote start failure aborts the idle → running transition -/

/-- C5: when the `startSession` remote call rejects, the transition
aborts atomically: phase reverts to `idle`, the session id is cleared,
the error message is surfaced, the only outward action is the start call
itself (the capture pipeline is never started and the recorder state is
untouched), and the state enables neither the event-stream effect nor the
countdown timer. -/
theorem startFailure_aborts (env : StartEnv) (s : OrchState) (msg : String)
    (h : env.startResult = RemoteResult.err msg) :
    (handleSessionStart env s).1.sessionPhase = SessionPhase.idle ∧
    (handleSessionStart env s).1.sessionId = none ∧
    (handleSessionStart env s).1.error = some msg ∧
    (handleSessionStart env s).2 = [Action.callStartSession] ∧
    (handleSessionStart env s).1.recorder = s.recorder ∧
    eventStreamShouldOpen (handleSessionStart env s).1 = false ∧
    timerArmedFor (handleSessionStart env s).1 = false := by
  simp [handleSessionStart, resetSessionState, h, eventStreamShouldOpen,
        timerArmedFor]

/-- Start environment: the remote `POST /sessions` call rejects. -/
def startEnvErr : StartEnv :=
  { startResult := .err "server down", mic := .ok }

/-- Witness for C5 at a concrete failing start on the fresh page. -/
theorem startFailure_aborts_witness :
    (handleSessionStart startEnvErr initState).1.sessionPhase
        = SessionPhase.idle ∧
    (handleSessionStart startEnvErr initState).1.sessionId = none ∧
    (handleSessionStart startEnvErr initState).1.error = some "server down" ∧
    (handleSessionStart startEnvErr initState).2 = [Action.callStartSession] ∧
    (handleSessionStart startEnvErr initState).1.recorder
        = initState.recorder ∧
    eventStreamShouldOpen (handleSessionStart startEnvErr initState).1
        = false ∧
    timerArmedFor (handleSessionStart startEnvErr initState).1 = false :=
  startFailure_aborts startEnvErr initState "server down" rfl

/-! ### C9 — rehydration never overwrites an in-memory summary -/

/-- C9: the rehydration effect adopts the cached summary as the local
summary only when none is in memory; whenever a local summary is already
present it leaves the state untouched, and a malformed cache slot is
discarded without effect (the parse failure is caught). -/
theorem rehydration_adopts_only_when_absent (s : OrchState) :
    (∀ x, s.localSummary = some x → rehydrate s = s) ∧
    (∀ c, s.localSummary = none → s.cache = some (CacheEntry.wellFormed c) →
      rehydrate s = { s with localSummary := some c }) ∧
    (∀ raw, s.cache = some (CacheEntry.malformed raw) → rehydrate s = s) := by
  refine ⟨?_, ?_, ?_⟩
  · intro x hx
    unfold rehydrate
    cases hc : s.cache with
    | none => rfl
    | some entry => simp [hx]
  · intro c hnone hc
    simp [rehydrate, hc, hnone]
  · intro raw hc
    unfold rehydrate
    rw [hc]
    cases hl : s.localSummary <;> simp [hl]

/-- Witness for C9: rehydrating the completed state (summary present)
changes nothing; rehydrating the fresh page with a cached summary adopts
it; a malformed slot is ignored. -/
theorem rehydration_adopts_only_when_absent_witness :
    rehydrate completedState = completedState ∧
    rehydrate { initState with cache := some (CacheEntry.wellFormed oldSummary) }
      = { { initState with cache := some (CacheEntry.wellFormed oldSummary) }
            with localSummary := some oldSummary } ∧
    rehydrate { initState with cache := some (CacheEntry.malformed "not json") }
      = { initState with cache := some (CacheEntry.malformed "not json") } :=
  ⟨(rehydration_adopts_only_when_absent completedState).1 oldSummary rfl,
   (rehydration_adopts_only_when_absent _).2.1 oldSummary rfl rfl,
   (rehydration_adopts_only_when_absent _).2.2 "not json" rfl⟩

/-! ### C7 — chunk sequence numbers form the series 1, 2, 3, … -/

lemma recorderChunks_emits (sizes : List Nat) (r : RecorderState) :
    (recorderChunks r sizes).2 =
      List.range' (r.chunkSeq + 1)
        ((sizes.filter (fun n => decide (0 < n))).length) ∧
    (recorderChunks r sizes).1.chunkSeq =
      r.chunkSeq + (sizes.filter (fun n => decide (0 < n))).length := by
  induction sizes generalizing r with
  | nil => simp [recorderChunks]
  | cons sz rest ih =>
    by_cases hsz : 0 < sz
    · have hstep : recorderChunk r sz
          = ({ r with chunkSeq := r.chunkSeq + 1 }, some (r.chunkSeq + 1)) := by
        simp [recorderChunk, hsz]
      have := ih { r with chunkSeq := r.chunkSeq + 1 }
      simp only [recorderChunks, hstep] at *
      refine ⟨?_, ?_⟩
      · rw [this.1]
        simp [List.filter_cons, hsz, List.range'_succ]
      · rw [this.2]
        simp [List.filter_cons, hsz]
        omega
    · have hstep : recorderChunk r sz = (r, none) := by
        simp [recorderChunk, hsz]
      have := ih r
      simp only [recorderChunks, hstep] at *
      simpa [List.filter_cons, hsz] using this

/-- C7: for one recording instance the counter resets to 0 when the
microphone is granted at `start`, and the sequence numbers handed to the
chunk sink for any series of delivered chunks form exactly the list
`1, 2, …, k` where `k` is the number of non-empty chunks — strictly
increasing, gap-free, repetition-free. The counter is bumped synchronously
in the `dataavailable` listener before the chunk is handed to the sink,
and upload settlement never feeds back into it. -/
theorem chunk_sequence_strict_series (r0 r : RecorderState) (sizes : List Nat)
    (h : r.chunkSeq = 0) :
    (recorderStart MicResult.ok r0).1.chunkSeq = 0 ∧
    (recorderChunks r sizes).2 =
      List.range' 1 ((sizes.filter (fun n => decide (0 < n))).length) := by
  refine ⟨rfl, ?_⟩
  have := (recorderChunks_emits sizes r).1
  rw [this, h]

/-- Witness for C7: a freshly started recorder delivering chunks of sizes
3, 0, 5, 2 hands the sink the sequence numbers 1, 2, 3 (the empty chunk is
skipped). -/
theorem chunk_sequence_strict_series_witness :
    (recorderStart MicResult.ok initState.recorder).1.chunkSeq = 0 ∧
    (recorderChunks (recorderStart MicResult.ok initState.recorder).1
        [3, 0, 5, 2]).2 =
      List.range' 1 (([3, 0, 5, 2].filter (fun n => decide (0 < n))).length) :=
  chunk_sequence_strict_series initState.recorder
    (recorderStart MicResult.ok initState.recorder).1 [3, 0, 5, 2] rfl

/-! ### C8 — countdown timer expiry semantics -/

lemma timerTick_unarmed (t : TimerState) (now : Nat) (h : t.armed = false) :
    timerTick t now = (t, false) := by
  simp [timerTick, h]

lemma timerTick_expired (t : TimerState) (now : Nat) (h : t.expired = true) :
    timerTick t now = (t, false) := by
  simp [timerTick, h]

lemma timerRun_unarmed (t : TimerState) (frames : List Nat)
    (h : t.armed = false) : timerRun t frames = (t, 0) := by
  induction frames with
  | nil => rfl
  | cons f rest ih => simp [timerRun, timerTick_unarmed t f h, ih]

lemma timerRun_expired (t : TimerState) (frames : List Nat)
    (h : t.expired = true) : timerRun t frames = (t, 0) := by
  induction frames with
  | nil => rfl
  | cons f rest ih => simp [timerRun, timerTick_expired t f h, ih]

lemma timerTick_fired_expired (t : TimerState) (now : Nat)
    (h : (timerTick t now).2 = true) : (timerTick t now).1.expired = true := by
  unfold timerTick at *
  by_cases hc : (!t.armed || t.expired) = true
  · simp [hc] at h
  · rw [if_neg hc] at *
    by_cases hz : t.durationMs - (now - t.startTime) = 0
    · simp [hz]
    · simp [hz] at h

lemma timerRun_le_one (t : TimerState) (frames : List Nat) :
    (timerRun t frames).2 ≤ 1 := by
  induction frames generalizing t with
  | nil => simp [timerRun]
  | cons f rest ih =>
    by_cases hfire : (timerTick t f).2 = true
    · have hexp := timerTick_fired_expired t f hfire
      simp [timerRun, hfire, timerRun_expired _ rest hexp]
    · simp only [Bool.not_eq_true] at hfire
      simp [timerRun, hfire, ih]

lemma timerTick_fires_iff (t : TimerState) (now : Nat) (ha : t.armed = true)
    (he : t.expired = false) :
    (timerTick t now).2 = (t.durationMs - (now - t.startTime) == 0) := by
  unfold timerTick
  rw [if_neg (by simp [ha, he])]
  by_cases hz : t.durationMs - (now - t.startTime) = 0 <;> simp [hz]

lemma timerTick_not_fired_frame (t : TimerState) (now : Nat) (ha : t.armed = true)
    (he : t.expired = false) (h : (timerTick t now).2 = false) :
    (timerTick t now).1 =
      { t with remainingMs := t.durationMs - (now - t.startTime) } := by
  unfold timerTick at *
  rw [if_neg (by simp [ha, he])] at *
  by_cases hz : t.durationMs - (now - t.startTime) = 0
  · simp [hz] at h
  · simp [hz]

lemma timerRun_fires (t : TimerState) (frames : List Nat) (ha : t.armed = true)
    (he : t.expired = false)
    (hf : ∃ f ∈ frames, t.startTime + t.durationMs ≤ f) :
    (timerRun t frames).2 = 1 ∧ (timerRun t frames).1.expired = true := by
  induction frames generalizing t with
  | nil => simp at hf
  | cons f rest ih =>
    by_cases hfire : (timerTick t f).2 = true
    · have hexp := timerTick_fired_expired t f hfire
      have hrest := timerRun_expired (timerTick t f).1 rest hexp
      simp [timerRun, hfire, hrest, hexp]
    · simp only [Bool.not_eq_true] at hfire
      have hnotf : ¬ (t.startTime + t.durationMs ≤ f) := by
        intro hle
        have : (timerTick t f).2 = true := by
          rw [timerTick_fires_iff t f ha he]
          simp only [beq_iff_eq]
          omega
        simp [this] at hfire
      obtain ⟨f₀, hf₀, hle₀⟩ := hf
      have hf₀rest : f₀ ∈ rest := by
        rcases List.mem_cons.mp hf₀ with h | h
        · exact absurd (h ▸ hle₀) hnotf
        · exact h
      have hframe := timerTick_not_fired_frame t f ha he hfire
      have hrec := ih (timerTick t f).1
        (by rw [hframe]; exact ha) (by rw [hframe]; exact he)
        ⟨f₀, hf₀rest, by rw [hframe]; exact hle₀⟩
      simp [timerRun, hfire, hrec.1, hrec.2]

lemma timerTick_fires_late (t : TimerState) (now : Nat)
    (hnow : t.startTime ≤ now) (h : (timerTick t now).2 = true) :
    t.startTime + t.durationMs ≤ now := by
  unfold timerTick at h
  by_cases hc : (!t.armed || t.expired) = true
  · simp [hc] at h
  · rw [if_neg hc] at h
    by_cases hz : t.durationMs - (now - t.startTime) = 0
    · omega
    · simp [hz] at h

/-- C8: a disarmed countdown loop never invokes `onExpire` over any frame
schedule; an armed, untouched loop invokes it at most once overall, fires
only at a frame whose elapsed time has reached the duration, invokes it
exactly once as soon as the frame schedule reaches the expiry instant, and
afterwards the loop is expired and schedules no further recomputation
(every later frame schedule is a no-op). -/
theorem timer_expiry_exactly_once (t : TimerState) (frames : List Nat) :
    (t.armed = false → timerRun t frames = (t, 0)) ∧
    (timerRun t frames).2 ≤ 1 ∧
    (∀ now, t.armed = true → t.expired = false → t.startTime ≤ now →
      (timerTick t now).2 = true → t.startTime + t.durationMs ≤ now) ∧
    (t.armed = true → t.expired = false →
      (∃ f ∈ frames, t.startTime + t.durationMs ≤ f) →
      (timerRun t frames).2 = 1 ∧ (timerRun t frames).1.expired = true ∧
      (∀ more : List Nat,
        timerRun (timerRun t frames).1 more = ((timerRun t frames).1, 0))) := by
  refine ⟨fun h => timerRun_unarmed t frames h, timerRun_le_one t frames,
    fun now _ _ hnow hfire => timerTick_fires_late t now hnow hfire,
    fun ha he hf => ?_⟩
  obtain ⟨h1, h2⟩ := timerRun_fires t frames ha he hf
  exact ⟨h1, h2, fun more => timerRun_expired _ more h2⟩

/-- The armed five-minute timer of the page, started at clock 10. -/
def armedTimer : TimerState :=
  { armed := true, startTime := 10, durationMs := 100, remainingMs := 100,
    expired := false }

/-- The same timer disarmed (the session is no longer running). -/
def disarmedTimer : TimerState := { armedTimer with armed := false }

/-- Witness for C8: the disarmed timer never fires over frames past its
deadline; the armed timer over frames 20, 60, 111, 150 fires exactly once
(at frame 111, where elapsed 101 ≥ 100), ends expired, and later frames
recompute nothing. -/
theorem timer_expiry_exactly_once_witness :
    timerRun disarmedTimer [200, 300] = (disarmedTimer, 0) ∧
    (timerRun armedTimer [20, 60, 111, 150]).2 = 1 ∧
    (timerRun armedTimer [20, 60, 111, 150]).1.expired = true ∧
    timerRun (timerRun armedTimer [20, 60, 111, 150]).1 [160, 170]
      = ((timerRun armedTimer [20, 60, 111, 150]).1, 0) :=
  ⟨(timer_expiry_exactly_once disarmedTimer [200, 300]).1 rfl,
   ((timer_expiry_exactly_once armedTimer [20, 60, 111, 150]).2.2.2 rfl rfl
      ⟨111, by decide, by decide⟩).1,
   ((timer_expiry_exactly_once armedTimer [20, 60, 111, 150]).2.2.2 rfl rfl
      ⟨111, by decide, by decide⟩).2.1,
   ((timer_expiry_exactly_once armedTimer [20, 60, 111, 150]).2.2.2 rfl rfl
      ⟨111, by decide, by decide⟩).2.2 [160, 170]⟩

/-! ### C3 — microphone failure: surfaced and capture inactive, but the
phase stays `running` (the recorder hook catches the rejection internally
and never rethrows, so `handleSessionStart`'s catch block does not run) -/

/-- Counterexample to C3 as stated: starting from the fresh page with a
successful remote start but a denied microphone, the failure is surfaced
(`recError`) and capture stays inactive, yet the session phase is
`running`, not `idle` as the claim requires. -/
theorem micFailure_counterexample :
    (handleSessionStart startEnvMicFail initState).1.recorder.recError
        = some "denied" ∧
    (handleSessionStart startEnvMicFail initState).1.recorder.isRecording
        = false ∧
    (handleSessionStart startEnvMicFail initState).1.sessionPhase
        = SessionPhase.running ∧
    (handleSessionStart startEnvMicFail initState).1.sessionPhase
        ≠ SessionPhase.idle := by
  refine ⟨rfl, rfl, rfl, by decide⟩

/-- C3 amended: if microphone acquisition fails during session start, the
failure is surfaced as a terminal error of that start call (the recorder's
error cell) and capture is left inactive — but the session phase remains
`running`: the hook catches the rejection without rethrowing, so the
orchestrator's abort path never runs and the session continues without
audio. -/
theorem micFailure_surfaced_capture_inactive (env : StartEnv) (s : OrchState)
    (resp : SessionStartResponse) (msg : String)
    (hok : env.startResult = RemoteResult.ok resp)
    (hmic : env.mic = MicResult.fail msg)
    (hrec : s.recorder.isRecording = false) :
    (handleSessionStart env s).1.recorder.recError = some msg ∧
    (handleSessionStart env s).1.recorder.isRecording = false ∧
    (handleSessionStart env s).2 = [Action.callStartSession] ∧
    (handleSessionStart env s).1.sessionPhase = SessionPhase.running := by
  cases hp : resp.initialPrompt <;>
    simp [handleSessionStart, resetSessionState, recorderStart, hok, hmic, hp,
          hrec]

/-- Witness for the amended C3 at the concrete denied-microphone start. -/
theorem micFailure_surfaced_capture_inactive_witness :
    (handleSessionStart startEnvMicFail initState).1.recorder.recError
        = some "denied" ∧
    (handleSessionStart startEnvMicFail initState).1.recorder.isRecording
        = false ∧
    (handleSessionStart startEnvMicFail initState).2
        = [Action.callStartSession] ∧
    (handleSessionStart startEnvMicFail initState).1.sessionPhase
        = SessionPhase.running :=
  micFailure_surfaced_capture_inactive startEnvMicFail initState
    okStartResponse "denied" rfl rfl rfl

/-! ### C4 — persisted-fetch failure: local summary stays displayed and
the fetch is not retried, but the shared catch block surfaces an error -/

/-- Counterexample to C4 as stated: finalize succeeds, the persisted fetch
fails — the local summary is displayed, but the error cell is set to the
fetch failure's message (both awaits share one `try`/`catch`), so a
user-visible error *is* produced, contrary to the claim's "silent
fallback, no user-visible error". -/
theorem persistedFetchFailure_counterexample :
    (handleSessionComplete envFetchFail runningState).1.error
        = some "network down" ∧
    (handleSessionComplete envFetchFail runningState).1.localSummary
        = some freshSummary ∧
    displayedSummary (handleSessionComplete envFetchFail runningState).1
        = some freshSummary := by
  exact ⟨rfl, rfl, rfl⟩

/-- C4 amended: if the persisted-summary fetch fails after a successful
finalize, the local summary remains the displayed result and the fetch is
issued exactly once (never retried), but the failure is caught by the
completion handler's shared catch block and surfaced in the error cell
(it is not silent). -/
theorem persistedFetchFailure_local_fallback (env : CompleteEnv) (s : OrchState)
    (sid : String) (sum : SessionSummary) (msg : String)
    (hsid : s.sessionId = some sid) (hg : s.completionGuard = false)
    (hper : s.persistedSummary = none)
    (hfin : env.finalize = RemoteResult.ok sum)
    (hfetch : env.persisted = RemoteResult.err msg) :
    (handleSessionComplete env s).1.localSummary = some sum ∧
    (handleSessionComplete env s).1.persistedSummary = none ∧
    displayedSummary (handleSessionComplete env s).1 = some sum ∧
    (handleSessionComplete env s).2.count (Action.callFetchPersisted sid) = 1 ∧
    (handleSessionComplete env s).1.error = some msg := by
  have hnone : s.sessionId.isNone = false := by simp [hsid]
  rw [handleSessionComplete_fires env s sid hsid hg]
  simp [handleSessionCompleteRest, hfin, hfetch, displayedSummary,
        handleSessionCompleteSync, hnone, hg, hper, List.count_cons]

/-- Witness for the amended C4 at the concrete failing fetch. -/
theorem persistedFetchFailure_local_fallback_witness :
    (handleSessionComplete envFetchFail runningState).1.localSummary
        = some freshSummary ∧
    (handleSessionComplete envFetchFail runningState).1.persistedSummary
        = none ∧
    displayedSummary (handleSessionComplete envFetchFail runningState).1
        = some freshSummary ∧
    (handleSessionComplete envFetchFail runningState).2.count
        (Action.callFetchPersisted "s1") = 1 ∧
    (handleSessionComplete envFetchFail runningState).1.error
        = some "network down" :=
  persistedFetchFailure_local_fallback envFetchFail runningState "s1"
    freshSummary "network down" rfl rfl rfl rfl rfl

/-! ### C6 — beginSession clears prior state, but the uncleaned cache
slot lets the rehydration effect re-adopt the prior session's summary -/

/-- Counterexample to C6 as stated: starting a new session from a
completed one clears the local summary, but the `sessionStorage` slot is
not cleared, and the rehydration effect (which re-runs whenever the local
summary changes) immediately re-adopts the prior session's cached summary
— so the prior-session summary reappears after the clear. -/
theorem beginSession_clear_counterexample :
    completedState.localSummary = some oldSummary ∧
    (handleSessionStart startEnvOk completedState).1.localSummary = none ∧
    (rehydrate (handleSessionStart startEnvOk completedState).1).localSummary
        = some oldSummary := by
  exact ⟨rfl, rfl, rfl⟩

/-- C6 amended: when `beginSession` succeeds it clears the prior session's
event log, both summaries and the error state; but it leaves the Summary
Cache slot untouched, so whenever that slot holds a prior session's
well-formed summary the subsequent rehydration pass re-adopts it as the
local summary — the cleared state persists only while the cache slot is
empty or malformed. -/
theorem beginSession_clears_cache_readopts (env : StartEnv) (s : OrchState)
    (resp : SessionStartResponse)
    (hok : env.startResult = RemoteResult.ok resp) :
    (handleSessionStart env s).1.localSummary = none ∧
    (handleSessionStart env s).1.persistedSummary = none ∧
    (handleSessionStart env s).1.error = none ∧
    (resp.initialPrompt = none → (handleSessionStart env s).1.events = []) ∧
    (handleSessionStart env s).1.cache = s.cache ∧
    (∀ c, s.cache = some (CacheEntry.wellFormed c) →
      (rehydrate (handleSessionStart env s).1).localSummary = some c) := by
  cases hp : resp.initialPrompt <;>
    refine ⟨?_, ?_, ?_, fun hnone => ?_, ?_, fun c hc => ?_⟩ <;>
      simp [handleSessionStart, resetSessionState, recorderStart, rehydrate, *]

/-- Witness for the amended C6: restart after a completed session with a
cached summary — cleared in memory, unchanged slot, re-adopted by
rehydration. -/
theorem beginSession_clears_cache_readopts_witness :
    (handleSessionStart startEnvOk completedState).1.localSummary = none ∧
    (handleSessionStart startEnvOk completedState).1.persistedSummary = none ∧
    (handleSessionStart startEnvOk completedState).1.error = none ∧
    (handleSessionStart startEnvOk completedState).1.events = [] ∧
    (handleSessionStart startEnvOk completedState).1.cache
        = completedState.cache ∧
    (rehydrate (handleSessionStart startEnvOk completedState).1).localSummary
        = some oldSummary :=
  ⟨(beginSession_clears_cache_readopts startEnvOk completedState
      okStartResponse rfl).1,
   (beginSession_clears_cache_readopts startEnvOk completedState
      okStartResponse rfl).2.1,
   (beginSession_clears_cache_readopts startEnvOk completedState
      okStartResponse rfl).2.2.1,
   (beginSession_clears_cache_readopts startEnvOk completedState
      okStartResponse rfl).2.2.2.1 rfl,
   (beginSession_clears_cache_readopts startEnvOk completedState
      okStartResponse rfl).2.2.2.2.1,
   (beginSession_clears_cache_readopts startEnvOk completedState
      okStartResponse rfl).2.2.2.2.2 oldSummary rfl⟩

end Journal
